import Mathlib

/-!
Verification of the quadplay asset loader (`src/console/quadplay-load.js`).

Each definition below is a shallow embedding of a function or code block of
`quadplay-load.js`; line numbers in the doc comments refer to that file.
JavaScript numbers are modelled by `ℚ` (all values reached by the theorems
are small dyadic rationals on which JS double arithmetic is exact);
irrational results (multiples of `Math.PI`) are kept symbolic via dedicated
constructors.  Object identity ("reference equality") is modelled by natural
number heap addresses where a claim depends on it.
-/

namespace QuadplayLoad

/-! ## Constant/value resolver: alias reference chains (lines 472-509) -/

/-- A manifest constant definition as far as the reference-resolution loop
inspects it: either `{type: 'reference', value: id}` or anything else. -/
inductive ConstDef where
  | reference (value : String)
  | other
deriving DecidableEq, Repr

/-- Result of the reference-chain walk of lines 480-491. -/
inductive RefResult where
  | ok (id : String) (path : String)
  | cycleError (msg : String)
  | outOfFuel
deriving DecidableEq, Repr

/-- The do-while loop of lines 484-491.  `seen` is the `alreadySeen` map:
the source populates it once with the starting identifier (line 482) and
never inserts the identifiers visited inside the loop, and this embedding
reproduces that by threading `seen` through unchanged.  `v` is
`definition.value` for the current reference definition, `path` the
accumulated chain text.  `fuel` bounds the number of iterations so the
embedding is total. -/
def walkRef (consts : String → Option ConstDef) :
    Nat → List String → String → String → RefResult
  | 0, _, _, _ => .outOfFuel
  | fuel + 1, seen, path, v =>
    let id := v
    let path2 := path ++ " → " ++ id
    if id ∈ seen then
      .cycleError ("Cycle in reference chain: " ++ path2)
    else
      match consts id with
      | some (.reference v2) => walkRef consts fuel seen path2 v2
      | _ => .ok id path2

/-- Entry into the loop for a constant `c` declared as a reference with
value `v0` (lines 480-484): `alreadySeen = {c}`, `path = c`. -/
def resolveReference (consts : String → Option ConstDef) (c v0 : String)
    (fuel : Nat) : RefResult :=
  walkRef consts fuel [c] c v0

/-- Constants table `A → B`, `B → A` (the two-element cycle of the spec). -/
def cycleConsts2 : String → Option ConstDef := fun s =>
  if s = "A" then some (.reference "B")
  else if s = "B" then some (.reference "A")
  else none

/-- Constants table `A → B`, `B → C`, `C → B`: the cycle does not pass
through the starting identifier `A`. -/
def cycleConsts3 : String → Option ConstDef := fun s =>
  if s = "A" then some (.reference "B")
  else if s = "B" then some (.reference "C")
  else if s = "C" then some (.reference "B")
  else none

/-! ## Asset cache dedup (lines 681-725, 839-911, 1208-1232, 1267-1303)

All four loaders begin with the same prologue over the session-scoped
`assetCache`: look the metadata URL up, return the cached object itself on a
hit, otherwise construct one fresh object, store it under the URL and return
it.  Constructed objects are modelled by increasing natural addresses so
that "the identical object (reference-equal)" is address equality. -/

inductive AssetKind where
  | font | spritesheet | sound | map
deriving DecidableEq, Repr

structure CacheState where
  cache : List (String × Nat)
  nextId : Nat
deriving DecidableEq, Repr

/-- `assetCache[jsonURL]` lookup. -/
def cacheFind : List (String × Nat) → String → Option Nat
  | [], _ => none
  | (k, v) :: rest, u => if k = u then some v else cacheFind rest u

/-- Shared cache prologue: hit returns the cached object and leaves the
state untouched; miss allocates a fresh object, stores and returns it. -/
def cacheLookupOrCreate (st : CacheState) (jsonURL : String) :
    Nat × CacheState :=
  match cacheFind st.cache jsonURL with
  | some a => (a, st)
  | none => (st.nextId, ⟨(jsonURL, st.nextId) :: st.cache, st.nextId + 1⟩)

/-- `loadFont` (lines 681-725): cache prologue at lines 684-698/701-708. -/
def loadFont (st : CacheState) (jsonURL : String) : Nat × CacheState :=
  cacheLookupOrCreate st jsonURL

/-- `loadSpritesheet` (lines 839-1195): cache prologue at lines 842-881
and 891-908. -/
def loadSpritesheet (st : CacheState) (jsonURL : String) : Nat × CacheState :=
  cacheLookupOrCreate st jsonURL

/-- `loadSound` (lines 1208-1262): cache prologue at lines 1211-1231. -/
def loadSound (st : CacheState) (jsonURL : String) : Nat × CacheState :=
  cacheLookupOrCreate st jsonURL

/-- `loadMap` (lines 1267-…): cache prologue at lines 1270-1303. -/
def loadMap (st : CacheState) (jsonURL : String) : Nat × CacheState :=
  cacheLookupOrCreate st jsonURL

/-- One asset-declaration callback (lines 337-356) dispatching on kind. -/
def loadAssetCall (k : AssetKind) (jsonURL : String) (st : CacheState) :
    Nat × CacheState :=
  match k with
  | .font => loadFont st jsonURL
  | .spritesheet => loadSpritesheet st jsonURL
  | .sound => loadSound st jsonURL
  | .map => loadMap st jsonURL

/-- A load session: the sequence of asset-declaration callbacks that run
against one `assetCache`. -/
def runSession : List (AssetKind × String) → CacheState → CacheState
  | [], st => st
  | (k, u) :: rest, st => runSession rest (loadAssetCall k u st).2

/-- Fresh session state (`assetCache = {}`, line 104/123). -/
def initialCacheState : CacheState := ⟨[], 0⟩

/-! ## Sprite orientation-id allocation (lines 1006-1026, 1160-1186) -/

/-- Base `orientation_id` values assigned to successive cells in creation
order: each cell receives the current `lastSpriteID` and the counter then
advances by `lastSpriteID += 3` (lines 1019-1026). -/
def allocIds : Int → Nat → List Int
  | _, 0 => []
  | s, n + 1 => s :: allocIds (s + 3) n

/-- The orientation ids of the four variants of a sprite with base id `b`:
the base, `x_flipped = b+1`, `y_flipped = b+2`, flip-both `= b+3`
(lines 1168, 1172, 1178). -/
def mirrorOrientationIds (b : Int) : List Int := [b, b + 1, b + 2, b + 3]

/-! ## Mirror-variant construction heap model (lines 1160-1186)

The block creating `x_flipped` / `y_flipped` / flip-both for one base
sprite is executed over a four-address heap: address 0 is the base sprite,
1 and 2 the two single-axis mirrors, 3 the object allocated by
`Object.assign({}, sprite)` on line 1176.  Fields `xf`/`yf` hold the
addresses stored in the `x_flipped`/`y_flipped` properties. -/

structure SpriteObj where
  scale : Int × Int
  oid : Int
  xf : Option Nat
  yf : Option Nat
  frozen : Bool
deriving DecidableEq, Repr

instance : Inhabited SpriteObj := ⟨⟨(0, 0), 0, none, none, false⟩⟩

/-- Executes lines 1163-1184 for a base sprite with `orientation_id = b`
(and `scale = PP = (1,1)`), returning the heap `[base, xFlip, yFlip,
flipBoth]`.  Each step mirrors one source statement; `Object.assign`
copies the current own properties of its source object. -/
def mkFlippedVariants (b : Int) : List SpriteObj :=
  -- the base sprite as built at lines 1007-1025
  let base0 : SpriteObj := ⟨(1, 1), b, none, none, false⟩
  -- line 1166: sprite.x_flipped = Object.assign({x_flipped: sprite}, sprite)
  let a1 : SpriteObj := ⟨base0.scale, base0.oid, some 0, base0.yf, false⟩
  -- lines 1167-1168: scale = NP; orientation_id += 1
  let a1 := { a1 with scale := (-1, 1), oid := a1.oid + 1 }
  let base1 := { base0 with xf := some 1 }
  -- line 1171: sprite.y_flipped = Object.assign({y_flipped: sprite}, sprite)
  -- sprite now carries x_flipped (address 1), which is copied too
  let a2 : SpriteObj := ⟨base1.scale, base1.oid, base1.xf, some 0, false⟩
  -- lines 1172-1173: orientation_id += 2; scale = PN
  let a2 := { a2 with oid := a2.oid + 2, scale := (1, -1) }
  let base2 := { base1 with yf := some 2 }
  -- line 1176: ... = Object.assign({}, sprite); sprite has xf = 1, yf = 2
  let a3 : SpriteObj := ⟨base2.scale, base2.oid, base2.xf, base2.yf, false⟩
  -- line 1176: both sprite.x_flipped.y_flipped and sprite.y_flipped.x_flipped
  -- are assigned this same object (address 3)
  let a1 := { a1 with yf := some 3 }
  let a2 := { a2 with xf := some 3 }
  -- line 1177: sprite.y_flipped.x_flipped.scale = NN
  let a3 := { a3 with scale := (-1, -1) }
  -- line 1178: sprite.y_flipped.x_flipped.orientation_id += 3
  let a3 := { a3 with oid := a3.oid + 3 }
  -- lines 1181-1184: Object.freeze on all four
  let a1 := { a1 with frozen := true }
  let a2 := { a2 with frozen := true }
  let a3 := { a3 with frozen := true }
  let base3 := { base2 with frozen := true }
  [base3, a1, a2, a3]

/-! ## Animation sequencer (lines 534-581, period computation 1130-1153) -/

inductive Extrapolate where
  | clamp | loop | oscillate
deriving DecidableEq, Repr

/-- A compiled animation sequence as `animationFrame` reads it: the
per-sprite `frames` durations in order, the `extrapolate` policy, and the
compile-time `period` and `frames` totals (`total` is the `clamp` total;
for `loop`/`oscillate` the source stores `Infinity` there, which the model
never reads because the `clamp` guard short-circuits first). -/
structure AnimSeq where
  durations : List ℚ
  extrapolate : Extrapolate
  period : ℚ
  total : ℚ
deriving DecidableEq, Repr

/-- JavaScript truncation toward zero, as used by the `%` operator. -/
def jsTrunc (q : ℚ) : Int := if 0 ≤ q then ⌊q⌋ else ⌈q⌉

/-- The JavaScript `%` operator on numbers: `a - b * trunc(a / b)`. -/
def jsMod (a b : ℚ) : ℚ := a - b * jsTrunc (a / b)

/-- The double-mod of line 551: `((f % period) + period) % period`. -/
def jsDoubleMod (f p : ℚ) : ℚ := jsMod (jsMod f p + p) p

/-- The forward linear scan of lines 573-577: the number of leading
durations fully consumed by `f` (the final `i`). -/
def upScan : List ℚ → ℚ → Nat
  | [], _ => 0
  | d :: rest, f => if d ≤ f then upScan rest (f - d) + 1 else 0

/-- The backward scan of lines 561-565, starting at index `i` and walking
toward 0 while `f >= animation[i].frames`. -/
def downScan (durs : List ℚ) : Nat → ℚ → Nat
  | 0, _ => 0
  | i + 1, f =>
    if durs.getD (i + 1) 0 ≤ f then downScan durs i (f - durs.getD (i + 1) 0)
    else i + 1

/-- `reverseTime` of line 557: `(period + first.frames + last.frames)/2`.
(`animation[0]` of an empty sequence is undefined in JS; modelled with
default 0 — every theorem below assumes a non-empty sequence.) -/
def reverseTime (a : AnimSeq) : ℚ :=
  (a.period + a.durations.headD 0 + a.durations.getLastD 0) / 2

/-- `animationFrame` (lines 536-581), returning the index used for the
final array lookup (`animation[idx]`); the returned sprite is the element
at that index, so out-of-bounds indices (negative, as JS produces for
degenerate inputs) denote an undefined result. -/
def animationFrameIndex (a : AnimSeq) (f0 : ℚ) : Int :=
  -- line 537: f = Math.floor(f)
  let f : ℚ := (⌊f0⌋ : Int)
  let N : Nat := a.durations.length
  if a.extrapolate = .clamp ∧ f < 0 then 0
  else if a.extrapolate = .clamp ∧ a.total ≤ f then (N : Int) - 1
  else
    -- line 551 (only in the non-clamp branch)
    let f := if a.extrapolate = .clamp then f else jsDoubleMod f a.period
    if a.extrapolate = .oscillate ∧ reverseTime a ≤ f then
      -- lines 558-567: count backwards from index N-2
      let f := f - reverseTime a
      if 2 ≤ N then (downScan a.durations (N - 2) f : Int) else (N : Int) - 2
    else
      -- lines 573-579
      min (upScan a.durations f : Int) ((N : Int) - 1)

/-- The `animation.period` accumulation of lines 1130-1153: `loop` sums
all durations; `oscillate` counts interior frames double, the first and
the last (by index) once; `clamp` leaves `period = 0`. -/
def computePeriod (e : Extrapolate) (durs : List ℚ) : ℚ :=
  (List.range durs.length).foldl
    (fun acc i =>
      match e with
      | .oscillate =>
        if i = 0 ∨ i = durs.length - 1 then acc + durs.getD i 0
        else acc + 2 * durs.getD i 0
      | .loop => acc + durs.getD i 0
      | .clamp => acc)
    0

/-- The `animation.frames` total for `clamp` (lines 1131, 1150). -/
def computeClampTotal (durs : List ℚ) : ℚ := durs.foldl (· + ·) 0

/-- Three-frame uniform `loop` sequence with period 3 (the spec's
sampling example). -/
def loopEx3 : AnimSeq := ⟨[1, 1, 1], .loop, 3, 0⟩

/-- Three-frame `loop` sequence with durations `[1/2, 1, 1]` and the
compile-time period `5/2` (durations of at least 0.25 frames are legal,
line 1121). -/
def loopCex : AnimSeq := ⟨[1/2, 1, 1], .loop, 5/2, 0⟩

/-! ## JavaScript `parseFloat` (builtin used by lines 1793-1797, 1978-2018)

Modelled from the ECMAScript definition on decimal inputs: skip leading
whitespace, optional sign, `Infinity`, else the longest decimal-literal
suffix `digits [.digits] [e [sign] digits]`; no valid numeric prefix gives
`NaN`. -/

inductive JSNum where
  | num (q : ℚ)
  | inf | ninf | nan
deriving DecidableEq, Repr

/-- Value of a digit run (most significant first). -/
def natOfDigits (ds : List Char) : Nat :=
  ds.foldl (fun acc c => 10 * acc + (c.toNat - '0'.toNat)) 0

/-- Exponent suffix `e|E [sign] digits`: returns the exponent and whether
a well-formed exponent was present (JS ignores a dangling `e`). -/
def parseExponent (cs : List Char) : Int :=
  match cs with
  | 'e' :: rest | 'E' :: rest =>
    let (sgn, rest2) : Int × List Char :=
      match rest with
      | '+' :: r => (1, r)
      | '-' :: r => (-1, r)
      | r => (1, r)
    let ds := rest2.takeWhile Char.isDigit
    if ds = [] then 0 else sgn * natOfDigits ds
  | _ => 0

/-- `parseFloat` after whitespace and sign removal. -/
def parseFloatBody (cs : List Char) : JSNum :=
  if cs.take 8 = "Infinity".data then .inf
  else
    let intDs := cs.takeWhile Char.isDigit
    let rest := cs.dropWhile Char.isDigit
    let (fracDs, rest2) : List Char × List Char :=
      match rest with
      | '.' :: r => (r.takeWhile Char.isDigit, r.dropWhile Char.isDigit)
      | r => ([], r)
    if intDs = [] ∧ fracDs = [] then .nan
    else
      let mantissa : ℚ :=
        (natOfDigits intDs : ℚ) +
          (natOfDigits fracDs : ℚ) / ((10 : ℚ) ^ fracDs.length)
      .num (mantissa * (10 : ℚ) ^ parseExponent rest2)

/-- The JavaScript `parseFloat` builtin (decimal forms). -/
def parseFloatJS (s : String) : JSNum :=
  let cs := s.data.dropWhile Char.isWhitespace
  match cs with
  | '+' :: rest => parseFloatBody rest
  | '-' :: rest =>
    match parseFloatBody rest with
    | .num q => .num (-q)
    | .inf => .ninf
    | .ninf => .inf
    | .nan => .nan
  | rest => parseFloatBody rest

/-! ## Character-list string primitives

JS string builtins used by the parsers, modelled over the character list of
the string so that every operation is a structural recursion. -/

/-- JS `String.prototype.trim`: strip whitespace from both ends. -/
def jsTrim (s : String) : String :=
  String.mk
    (((s.data.dropWhile Char.isWhitespace).reverse.dropWhile
        Char.isWhitespace).reverse)

/-- JS `String.prototype.endsWith`. -/
def endsWithChars (s t : String) : Bool :=
  s.data.reverse.take t.data.length = t.data.reverse

/-- JS `String.prototype.substring(n)` (drop the first `n` characters). -/
def strDrop (s : String) (n : Nat) : String := String.mk (s.data.drop n)

/-- JS `String.prototype.substring(0, length - n)` (drop the last `n`). -/
def strDropRight (s : String) (n : Nat) : String :=
  String.mk (s.data.take (s.data.length - n))

/-! ## Literal value parser: bare-token constants (lines 1735-1799) -/

/-- A value produced by the bare-token branch of `$parse`.  `piMul q`
denotes the JS number `q * Math.PI` and `deg q` denotes
`q * Math.PI / 180` (kept symbolic: `ℚ` cannot represent `π`). -/
inductive LitVal where
  | boolV (b : Bool)
  | undef
  | funcV
  | infV | ninfV | nanV
  | num (q : ℚ)
  | piMul (q : ℚ)
  | deg (q : ℚ)
deriving DecidableEq, Repr

/-- `/(deg|°)$/` of line 1792. -/
def endsInDegToken (t : String) : Bool :=
  endsWithChars t "deg" || endsWithChars t "°"

/-- Converts a `parseFloat` result scaled into the degree branch of line
1793 (`parseFloat(token) * Math.PI / 180`). -/
def jsNumTimesPiOver180 : JSNum → LitVal
  | .num q => .deg q
  | .inf => .infV
  | .ninf => .ninfV
  | .nan => .nanV

/-- `parseFloat(token) / 100` of line 1795. -/
def jsNumOver100 : JSNum → LitVal
  | .num q => .num (q / 100)
  | .inf => .infV
  | .ninf => .ninfV
  | .nan => .nanV

/-- Plain `parseFloat(token)` of line 1797. -/
def jsNumToLit : JSNum → LitVal
  | .num q => .num q
  | .inf => .infV
  | .ninf => .ninfV
  | .nan => .nanV

/-- The bare-token constant table and fallbacks of lines 1738-1799.  The
caller has already lowercased the token (line 1738).  Every `case` line of
the source switch appears here in order; the `½π` family reproduces the
source values verbatim (lines 1751-1752 return `Math.PI/4` and
`-Math.PI/4`). -/
def parseBareToken (token : String) : LitVal :=
  match token with
  | "true" => .boolV true
  | "false" => .boolV false
  | "nil" | "∅" | "builtin" => .undef
  | "function" => .funcV
  | "infinity" | "∞" | "+infinity" | "+∞" => .infV
  | "-infinity" | "-∞" => .ninfV
  | "nan" => .nanV
  | "pi" | "π" | "+pi" | "+π" => .piMul 1
  | "-pi" | "-π" => .piMul (-1)
  | "¼pi" | "¼π" | "+¼pi" | "+¼π" => .piMul (1/4)
  | "-¼pi" | "-¼π" => .piMul (-(1/4))
  | "½pi" | "½π" | "+½pi" | "+½π" => .piMul (1/4)
  | "-½pi" | "-½π" => .piMul (-(1/4))
  | "¾pi" | "¾π" | "+¾pi" | "+¾π" => .piMul (3/4)
  | "-¾pi" | "-¾π" => .piMul (-(3/4))
  | "¼" => .num (1/4)
  | "½" => .num (1/2)
  | "¾" => .num (3/4)
  | "⅓" => .num (1/3)
  | "⅔" => .num (2/3)
  | "⅕" => .num (1/5)
  | "⅖" => .num (2/5)
  | "⅗" => .num (3/5)
  | "⅘" => .num (4/5)
  | "⅙" => .num (1/6)
  | "⅚" => .num (5/6)
  | "⅐" => .num (1/7)
  | "⅛" => .num (1/8)
  | "⅜" => .num (3/8)
  | "⅝" => .num (5/8)
  | "⅞" => .num (7/8)
  | "⅑" => .num (1/9)
  | "⅒" => .num (1/10)
  | "-¼" => .num (-(1/4))
  | "-½" => .num (-(1/2))
  | "-¾" => .num (-(3/4))
  | "-⅓" => .num (-(1/3))
  | "-⅔" => .num (-(2/3))
  | "-⅕" => .num (-(1/5))
  | "-⅖" => .num (-(2/5))
  | "-⅗" => .num (-(3/5))
  | "-⅘" => .num (-(4/5))
  | "-⅙" => .num (-(1/6))
  | "-⅚" => .num (-(5/6))
  | "-⅐" => .num (-(1/7))
  | "-⅛" => .num (-(1/8))
  | "-⅜" => .num (-(3/8))
  | "-⅝" => .num (-(5/8))
  | "-⅞" => .num (-(7/8))
  | "-⅑" => .num (-(1/9))
  | "-⅒" => .num (-(1/10))
  | _ =>
    if endsInDegToken token then jsNumTimesPiOver180 (parseFloatJS token)
    else if endsWithChars token "%" then jsNumOver100 (parseFloatJS token)
    else jsNumToLit (parseFloatJS token)

/-! ## Tabular data parser (`parseCSV`, lines 1955-2032) -/

/-- A JS value held in a parsed CSV grid cell.  `deg q` denotes the number
`q * Math.PI / 180` (line 2018, symbolic); `hole` is an unassigned array
slot (reading it yields `undefined`), as opposed to `undef`, an assigned
`undefined` from a `nil`/`null` cell. -/
inductive CellVal where
  | num (q : ℚ)
  | deg (q : ℚ)
  | str (s : String)
  | boolV (b : Bool)
  | undef
  | infV | ninfV | nanV
  | hole
deriving DecidableEq, Repr

/-- The character class `[+\-0-9\.e]` of lines 2013-2017. -/
def isNumClassChar (c : Char) : Bool :=
  c.isDigit || c = '+' || c = '-' || c = '.' || c = 'e'

/-- `/^[\$¥€£§][+\-0-9\.e]+$/` (line 2013). -/
def isCurrencyCell (s : String) : Bool :=
  match s.data with
  | c :: rest =>
    (c = '$' || c = '¥' || c = '€' || c = '£' || c = '§') &&
      rest ≠ [] && rest.all isNumClassChar
  | [] => false

/-- `/^[+\-0-9\.e]+%$/` (line 2015). -/
def isPercentCell (s : String) : Bool :=
  endsWithChars s "%" &&
    (s.data.dropLast ≠ [] && (s.data.dropLast).all isNumClassChar)

/-- `/^[+\-0-9\.e]+ ?deg$/` (line 2017). -/
def isDegCell (s : String) : Bool :=
  endsWithChars s "deg" &&
    (let body := s.data.dropLast.dropLast.dropLast
     let core := match body.getLast? with
                 | some ' ' => body.dropLast
                 | _ => body
     core ≠ [] && core.all isNumClassChar)

/-- The per-cell coercion of lines 1977-2021: `parseFloat` first; then, if
`NaN` and the cell is a non-empty string, optionally trim and try the
special constants and the currency/percent/degree patterns, else keep the
string. -/
def coerceCell (trim : Bool) (val : String) : CellVal :=
  match parseFloatJS val with
  | .num q => .num q
  | .inf => .infV
  | .ninf => .ninfV
  | .nan =>
    if val = "" then .str val
    else
      let val := if trim then jsTrim val else val
      match val with
      | "infinity" | "+infinity" => .infV
      | "-infinity" => .ninfV
      | "nil" | "null" => .undef
      | "NaN" | "nan" => .nanV
      | "TRUE" | "true" => .boolV true
      | "FALSE" | "false" => .boolV false
      | _ =>
        if isCurrencyCell val then
          match parseFloatJS (strDrop val 1) with
          | .num q => .num q
          | .inf => .infV
          | .ninf => .ninfV
          | .nan => .nanV
        else if isPercentCell val then
          match parseFloatJS (strDropRight val 1) with
          | .num q => .num (q / 100)
          | .inf => .infV
          | .ninf => .ninfV
          | .nan => .nanV
        else if isDegCell val then
          match parseFloatJS (jsTrim (strDropRight val 3)) with
          | .num q => .deg q
          | .inf => .infV
          | .ninf => .ninfV
          | .nan => .nanV
        else .str val

/-- Quoted-field body: scans to the closing quote, unescaping `""` to `"`
(the source captures the raw body via `"([^"]*(?:""[^"]*)*)"` and then
applies `.replace(/""/g, '"')`; this embedding fuses the two steps).
Returns the field text and the remaining characters after the closing
quote. -/
def scanQuoted : List Char → List Char × List Char
  | [] => ([], [])
  | '"' :: '"' :: rest =>
    let (c, r) := scanQuoted rest
    ('"' :: c, r)
  | '"' :: rest => ([], rest)
  | c :: rest =>
    let (cs, r) := scanQuoted rest
    (c :: cs, r)

/-- One field: a quoted field if the text starts with `"`, else the run of
characters up to the next comma or line break (`([^,\r\n]*)`). -/
def scanField (cs : List Char) : String × List Char :=
  match cs with
  | '"' :: rest =>
    let (body, r) := scanQuoted rest
    (String.mk body, r)
  | _ =>
    (String.mk (cs.takeWhile (fun c => c ≠ ',' ∧ c ≠ '\r' ∧ c ≠ '\n')),
     cs.dropWhile (fun c => c ≠ ',' ∧ c ≠ '\r' ∧ c ≠ '\n'))

/-- The `objPattern.exec` splitting loop of lines 1956-1966: fields
separated by `,` within a row, rows separated by `\r\n`, `\r` or `\n`. -/
def csvSplitAux : Nat → List Char → List String → List (List String) →
    List (List String)
  | 0, _, row, acc => acc ++ [row.reverse]
  | fuel + 1, cs, row, acc =>
    let (field, rest) := scanField cs
    match rest with
    | ',' :: r => csvSplitAux fuel r (field :: row) acc
    | '\r' :: '\n' :: r => csvSplitAux fuel r [] (acc ++ [(field :: row).reverse])
    | '\r' :: r => csvSplitAux fuel r [] (acc ++ [(field :: row).reverse])
    | '\n' :: r => csvSplitAux fuel r [] (acc ++ [(field :: row).reverse])
    | _ => acc ++ [(field :: row).reverse]

/-- Splits CSV text into the row-major grid of raw field strings. -/
def csvSplit (s : String) : List (List String) :=
  csvSplitAux (s.length + 1) s.data [] []

/-- `Array.prototype.fill(v, s, e)` on an array without holes in `[s, e)`
(non-negative clamped indices). -/
def jsFill (l : List CellVal) (v : CellVal) (s e : Nat) : List CellVal :=
  (l.enum.map (fun p => if s ≤ p.1 ∧ p.1 < e then v else p.2))

/-- The row-normalization step of lines 2024-2028: `array.length = max`
extends the row with holes, then `array.fill(old, max, '')` runs — its
arguments are `(value = old, start = max, end = Number('') = 0)`, an empty
range. -/
def padRow (row : List CellVal) (maxLen : Nat) : List CellVal :=
  if row.length < maxLen then
    let old := row.length
    let extended := row ++ List.replicate (maxLen - row.length) CellVal.hole
    jsFill extended (.num old) maxLen 0
  else row

/-- `parseCSV` (lines 1955-2032): split, then per row coerce each cell and
normalize the row length to the maximum observed length. -/
def parseCSV (strData : String) (trim : Bool) : List (List CellVal) :=
  let data := csvSplit strData
  let maxLen := data.foldl (fun m r => max m r.length) 0
  data.map (fun row => padRow (row.map (coerceCell trim)) maxLen)

/-! ## Mode table and `start_mode` check (lines 282-301) -/

/-- The mode-name derivation of line 290: strip everything through the
last `/` (`replace(/^.*\//, '')`), then turn a leading underscore into `$`
(`replace(/(^|\/)_([^\/]+)$/, '$1$$$2')`; after the first replace the name
is slash-free, so this fires exactly when the name starts with `_` and has
at least one further character). -/
def modeNameOf (m : String) : String :=
  let afterSlash :=
    String.mk ((m.data.reverse.takeWhile (fun c => c ≠ '/')).reverse)
  match afterSlash.data with
  | '_' :: rest => if rest = [] then afterSlash else String.mk ('$' :: rest)
  | _ => afterSlash

/-- The `numStartModes` accumulation of lines 285-297 over the (extended)
`gameJSON.modes` list. -/
def numStartModes (modes : List String) (startMode : String) : Nat :=
  modes.foldl (fun n m => if modeNameOf m = startMode then n + 1 else n) 0

/-- Lines 299-301: the mode block throws exactly when
`numStartModes === 0`; no other count is rejected. -/
def startModeCheckThrows (modes : List String) (startMode : String) : Bool :=
  numStartModes modes startMode = 0

/-! ## Theorems -/

/-- On the table `A → B`, `B → C`, `C → B` the walk never leaves the
two-element cycle `{B, C}` and never meets the visited set `{A}`, so it
consumes any amount of fuel: the source loop does not terminate. -/
theorem walkRef_cycleConsts3_diverges :
    ∀ (fuel : Nat) (path v : String), v = "B" ∨ v = "C" →
      walkRef cycleConsts3 fuel ["A"] path v = .outOfFuel := by
  intro fuel
  induction fuel with
  | zero => intro path v _; rfl
  | succ n ih =>
    intro path v hv
    rcases hv with h | h <;> subst h
    · show walkRef cycleConsts3 n ["A"] (path ++ " → " ++ "B") "C" = .outOfFuel
      exact ih _ "C" (Or.inr rfl)
    · show walkRef cycleConsts3 n ["A"] (path ++ " → " ++ "C") "B" = .outOfFuel
      exact ih _ "B" (Or.inl rfl)

/-- C1: the two-element cycle through the starting constant is caught and
reported with the exact chain path `A → B → A`, but the visited set is
never extended past the starting identifier, so on the table `A → B`,
`B → C`, `C → B` the chain revisits `B` without ever being detected and
the walk fails to terminate for every iteration bound.  This refutes the
claimed termination/visited-set accumulation and confirms the chain-path
message format. -/
theorem referenceChain_cycle_detection_incomplete_C1 :
    resolveReference cycleConsts2 "A" "B" 9 =
      .cycleError "Cycle in reference chain: A → B → A" ∧
    ∀ fuel : Nat, resolveReference cycleConsts3 "A" "B" fuel = .outOfFuel := by
  refine ⟨by decide, fun fuel => ?_⟩
  exact walkRef_cycleConsts3_diverges fuel "A" "B" (Or.inl rfl)

/-- C3: the per-cell id counter advances by 3, not 4: a sheet of two cells
starting at id `s` allocates base ids `[s, s+3]`, and `s+3` is
simultaneously the flip-both orientation id of the first sprite and the
base orientation id of the second, so orientation ids are not globally
unique. -/
theorem spriteOrientationIds_collide_C3 (s : Int) :
    allocIds s 2 = [s, s + 3] ∧
    s + 3 ∈ mirrorOrientationIds s ∧
    s + 3 ∈ mirrorOrientationIds (s + 3) := by
  refine ⟨rfl, ?_, ?_⟩ <;> simp [mirrorOrientationIds]

/-- C5: the coercion pass applies `parseFloat` before the special-pattern
switch, and `parseFloat` already parses the numeric prefix of
percent/degree literals, so `"75%"` coerces to 75 (not 0.75) and
`"45deg"` to 45 (not π/4); only the currency pattern, whose cells
`parseFloat` rejects, behaves as claimed (`"$12.50"` → 12.5). -/
theorem csv_percent_deg_coercion_C5 :
    coerceCell true "75%" = .num 75 ∧
    coerceCell true "45deg" = .num 45 ∧
    coerceCell true "$12.50" = .num (25/2) := by
  refine ⟨?_, ?_, ?_⟩ <;>
    (simp +decide [coerceCell, parseFloatJS, parseFloatBody, parseExponent,
      natOfDigits, isCurrencyCell, isPercentCell, isDegCell, isNumClassChar,
      jsTrim, strDrop, strDropRight, endsWithChars]
     <;> norm_num)

/-- C6: the bare-token table returns `Math.PI/4` for `½π` (and `-Math.PI/4`
for `-½π`), the same value as the `¼π` entries, instead of the claimed
`π/2`; the `-¼π` entry is correct.  (`piMul q` denotes `q·π`.) -/
theorem parse_half_pi_token_C6 :
    parseBareToken "½π" = .piMul (1/4) ∧
    parseBareToken "-½π" = .piMul (-(1/4)) ∧
    parseBareToken "-¼π" = .piMul (-(1/4)) ∧
    parseBareToken "½" = .num (1/2) := by
  refine ⟨?_, ?_, ?_, ?_⟩ <;> rfl

/-- C7 counterexample: a manifest declaring modes `Play` and `dir/Play`
with `start_mode = "Play"` has two modes whose derived name equals the
start mode, yet the mode block does not throw — the source only rejects
`numStartModes === 0`, so "greater than one aborts" is false. -/
theorem startMode_duplicate_accepted_C7_counterexample :
    numStartModes ["Play", "dir/Play"] "Play" = 2 ∧
    startModeCheckThrows ["Play", "dir/Play"] "Play" = false := by
  refine ⟨?_, ?_⟩ <;> decide

/-- Folding the `numStartModes` counter from any seed adds the match
count of the list. -/
theorem numStartModes_foldl (s : String) :
    ∀ (modes : List String) (n : Nat),
      modes.foldl (fun n m => if modeNameOf m = s then n + 1 else n) n =
        n + modes.countP (fun m => modeNameOf m = s) := by
  intro modes
  induction modes with
  | nil => intro n; simp
  | cons m rest ih =>
    intro n
    by_cases h : modeNameOf m = s <;>
      simp [List.countP_cons, h, ih, Nat.add_assoc, Nat.add_comm]

/-- C7 (amended): loading aborts in the mode block exactly when no
declared mode's derived name equals `start_mode`; any positive number of
matching modes — including duplicates — is accepted. -/
theorem startMode_throws_iff_no_match_C7 (modes : List String) (s : String) :
    startModeCheckThrows modes s = true ↔ ∀ m ∈ modes, modeNameOf m ≠ s := by
  have h := numStartModes_foldl s modes 0
  rw [startModeCheckThrows, numStartModes]
  rw [h]
  simp [List.countP_eq_zero]

/-- C8: on the input `"a,b\nc"` the short second row is extended to the
maximum length 2, but the appended slot is an unassigned hole (JS
`undefined`), not the empty-string fill: the source calls
`array.fill(old, max, '')`, whose range `[max, 0)` is empty. -/
theorem csv_pad_leaves_holes_C8 :
    parseCSV "a,b\nc" true =
      [[.str "a", .str "b"], [.str "c", .hole]] := by
  simp +decide [parseCSV, csvSplit, csvSplitAux, scanField, scanQuoted,
    coerceCell, parseFloatJS, parseFloatBody, padRow, jsFill, jsTrim,
    isCurrencyCell, isPercentCell, isDegCell, isNumClassChar, endsWithChars,
    natOfDigits, parseExponent]

/-- C9: for every base orientation id `b`, line 1176 stores one and the
same object (heap address 3) into both `sprite.x_flipped.y_flipped` and
`sprite.y_flipped.x_flipped`; that object ends up frozen with scale
`(-1, -1)` and orientation id `b + 3`. -/
theorem sprite_flip_commute_C9 (b : Int) :
    ((mkFlippedVariants b).getD 1 default).yf = some 3 ∧
    ((mkFlippedVariants b).getD 2 default).xf = some 3 ∧
    ((mkFlippedVariants b).getD 3 default).scale = (-1, -1) ∧
    ((mkFlippedVariants b).getD 3 default).oid = b + 3 ∧
    ((mkFlippedVariants b).getD 3 default).frozen = true :=
  ⟨rfl, rfl, rfl, rfl, rfl⟩

/-- A URL that `cacheFind` misses is not among the cache keys. -/
theorem cacheFind_eq_none_notMem (l : List (String × Nat)) (u : String) :
    cacheFind l u = none → u ∉ l.map Prod.fst := by
  induction l with
  | nil => intro _ h; simp at h
  | cons p rest ih =>
    intro h hm
    rw [cacheFind] at h
    by_cases hk : p.1 = u
    · simp [hk] at h
    · simp only [List.map_cons, List.mem_cons] at hm
      rcases hm with hm | hm
      · exact hk hm.symm
      · exact ih (by simpa [hk] using h) hm

/-- All four loaders are the shared cache prologue. -/
theorem loadAssetCall_eq (k : AssetKind) (u : String) (st : CacheState) :
    loadAssetCall k u st = cacheLookupOrCreate st u := by
  cases k <;> rfl

/-- One loader call preserves distinctness of the cache keys. -/
theorem loadAssetCall_keys_nodup (k : AssetKind) (u : String)
    (st : CacheState) (h : (st.cache.map Prod.fst).Nodup) :
    (((loadAssetCall k u st).2.cache.map Prod.fst)).Nodup := by
  rw [loadAssetCall_eq, cacheLookupOrCreate]
  cases hc : cacheFind st.cache u with
  | some a => exact h
  | none =>
    have hu := cacheFind_eq_none_notMem st.cache u hc
    simp only [List.map_cons, List.nodup_cons]
    exact ⟨hu, h⟩

/-- Distinct cache keys are preserved by any whole session. -/
theorem runSession_keys_nodup :
    ∀ (calls : List (AssetKind × String)) (st : CacheState),
      (st.cache.map Prod.fst).Nodup →
      ((runSession calls st).cache.map Prod.fst).Nodup := by
  intro calls
  induction calls with
  | nil => intro st h; exact h
  | cons c rest ih =>
    intro st h
    exact ih _ (loadAssetCall_keys_nodup c.1 c.2 st h)

/-- C2: over any session run from an empty cache, (1) the cache never
holds two entries for one URL; (2) a loader call whose URL is already
cached returns the cached object itself and leaves the state unchanged,
constructing nothing; (3) two loader calls for the same URL — any asset
kinds, back to back — return the identical object. -/
theorem assetCache_dedup_C2 (calls : List (AssetKind × String)) :
    (((runSession calls initialCacheState).cache.map Prod.fst)).Nodup ∧
    (∀ (k : AssetKind) (u : String) (a : Nat),
      cacheFind (runSession calls initialCacheState).cache u = some a →
      loadAssetCall k u (runSession calls initialCacheState) =
        (a, runSession calls initialCacheState)) ∧
    (∀ (k1 k2 : AssetKind) (u : String),
      (loadAssetCall k2 u
          (loadAssetCall k1 u (runSession calls initialCacheState)).2).1 =
        (loadAssetCall k1 u (runSession calls initialCacheState)).1) := by
  refine ⟨runSession_keys_nodup calls initialCacheState List.nodup_nil, ?_, ?_⟩
  · intro k u a h
    rw [loadAssetCall_eq, cacheLookupOrCreate, h]
  · intro k1 k2 u
    set st := runSession calls initialCacheState
    rw [loadAssetCall_eq, loadAssetCall_eq, cacheLookupOrCreate]
    cases hc : cacheFind st.cache u with
    | some a => simp [cacheLookupOrCreate, hc]
    | none => simp [cacheLookupOrCreate, hc, cacheFind]

/-- C2 witness: in the session that loads `s.json` once as a sound, a
later font call for the same URL returns the cached object (address 0)
without touching the cache. -/
theorem assetCache_dedup_C2_witness :
    loadAssetCall .font "s.json"
        (runSession [(.sound, "s.json")] initialCacheState) =
      (0, runSession [(.sound, "s.json")] initialCacheState) :=
  (assetCache_dedup_C2 [(.sound, "s.json")]).2.1 .font "s.json" 0 (by decide)

/-! ### Arithmetic facts about the JS modulo operations -/

/-- On non-negative arguments JS truncation is the floor. -/
theorem jsTrunc_of_nonneg {q : ℚ} (h : 0 ≤ q) : jsTrunc q = ⌊q⌋ := if_pos h

/-- Truncation error is below 1. -/
theorem sub_jsTrunc_lt_one (q : ℚ) : q - (jsTrunc q : ℚ) < 1 := by
  rw [jsTrunc]; split
  · have := Int.lt_floor_add_one q; push_cast at this ⊢; linarith
  · have := Int.le_ceil q; push_cast at this ⊢; linarith

/-- Truncation error is above −1. -/
theorem neg_one_lt_sub_jsTrunc (q : ℚ) : -1 < q - (jsTrunc q : ℚ) := by
  rw [jsTrunc]; split
  · have := Int.floor_le q; push_cast at this ⊢; linarith
  · have := Int.ceil_lt_add_one q; push_cast at this ⊢; linarith

/-- `jsMod` as a scaled truncation error. -/
theorem jsMod_eq_mul {p : ℚ} (y : ℚ) (hp : p ≠ 0) :
    jsMod y p = p * (y / p - (jsTrunc (y / p) : ℚ)) := by
  rw [jsMod]
  field_simp

/-- `y % p < p` for positive `p`. -/
theorem jsMod_lt {p : ℚ} (y : ℚ) (hp : 0 < p) : jsMod y p < p := by
  rw [jsMod_eq_mul y hp.ne.symm]
  have h := sub_jsTrunc_lt_one (y / p)
  calc p * (y / p - (jsTrunc (y / p) : ℚ)) < p * 1 :=
        mul_lt_mul_of_pos_left h hp
    _ = p := mul_one p

/-- `-p < y % p` for positive `p`. -/
theorem neg_lt_jsMod {p : ℚ} (y : ℚ) (hp : 0 < p) : -p < jsMod y p := by
  rw [jsMod_eq_mul y hp.ne.symm]
  have h := neg_one_lt_sub_jsTrunc (y / p)
  calc -p = p * (-1) := by ring
    _ < p * (y / p - (jsTrunc (y / p) : ℚ)) := mul_lt_mul_of_pos_left h hp

/-- `0 ≤ y % p` for non-negative `y` and positive `p`. -/
theorem jsMod_nonneg {p y : ℚ} (hy : 0 ≤ y) (hp : 0 < p) : 0 ≤ jsMod y p := by
  have hq : (0 : ℚ) ≤ y / p := div_nonneg hy hp.le
  rw [jsMod, jsTrunc_of_nonneg hq]
  have h1 : ((⌊y / p⌋ : ℚ)) ≤ y / p := Int.floor_le (y / p)
  have h2 : p * ((⌊y / p⌋ : ℚ)) ≤ p * (y / p) :=
    mul_le_mul_of_nonneg_left h1 hp.le
  have h3 : p * (y / p) = y := by field_simp
  linarith

/-- The double-mod result is non-negative for positive period. -/
theorem jsDoubleMod_nonneg (f : ℚ) {p : ℚ} (hp : 0 < p) :
    0 ≤ jsDoubleMod f p := by
  have h1 : -p < jsMod f p := neg_lt_jsMod f hp
  exact jsMod_nonneg (by linarith) hp

/-- The double-mod result is below the period for positive period. -/
theorem jsDoubleMod_lt (f : ℚ) {p : ℚ} (hp : 0 < p) : jsDoubleMod f p < p :=
  jsMod_lt _ hp

/-- The double-mod shifts its argument by an integer multiple of `p`. -/
theorem jsDoubleMod_sub_int (f p : ℚ) :
    ∃ m : ℤ, jsDoubleMod f p = f - p * m := by
  refine ⟨jsTrunc (f / p) - 1 + jsTrunc ((jsMod f p + p) / p), ?_⟩
  rw [jsDoubleMod]
  conv_lhs => rw [jsMod]
  rw [jsMod]
  push_cast
  ring

/-- Two arguments that differ by an integer multiple of a positive period
have the same double-mod. -/
theorem jsDoubleMod_eq_of_sub {p : ℚ} (hp : 0 < p) (x y : ℚ) (k : ℤ)
    (hxy : x = y - p * k) : jsDoubleMod x p = jsDoubleMod y p := by
  obtain ⟨m1, h1⟩ := jsDoubleMod_sub_int x p
  obtain ⟨m2, h2⟩ := jsDoubleMod_sub_int y p
  have hb1 := jsDoubleMod_nonneg x hp
  have hb2 := jsDoubleMod_lt x hp
  have hb3 := jsDoubleMod_nonneg y hp
  have hb4 := jsDoubleMod_lt y hp
  have hdiff : jsDoubleMod x p - jsDoubleMod y p =
      p * (((m2 - k - m1 : ℤ) : ℚ)) := by
    rw [h1, h2, hxy]; push_cast; ring
  have hj1 : p * (((m2 - k - m1 : ℤ) : ℚ)) < p * 1 := by
    rw [← hdiff, mul_one]; linarith
  have hj2 : p * (-1 : ℚ) < p * (((m2 - k - m1 : ℤ) : ℚ)) := by
    rw [← hdiff]; nlinarith
  have hl1 : (((m2 - k - m1 : ℤ) : ℚ)) < 1 := lt_of_mul_lt_mul_left hj1 hp.le
  have hl2 : (-1 : ℚ) < (((m2 - k - m1 : ℤ) : ℚ)) :=
    lt_of_mul_lt_mul_left hj2 hp.le
  have hz : (m2 - k - m1 : ℤ) = 0 := by
    have a1 : (m2 - k - m1 : ℤ) < 1 := by exact_mod_cast hl1
    have a2 : (-1 : ℤ) < (m2 - k - m1 : ℤ) := by exact_mod_cast hl2
    omega
  have : jsDoubleMod x p - jsDoubleMod y p = 0 := by
    rw [hdiff, hz]; push_cast; ring
  linarith

/-- Flooring before or after the double-mod agrees when the period is a
positive integer. -/
theorem floor_jsDoubleMod (f : ℚ) (n : ℕ) (hn : 0 < n) :
    jsDoubleMod ((⌊jsDoubleMod f (n : ℚ)⌋ : ℚ)) (n : ℚ) =
      jsDoubleMod ((⌊f⌋ : ℚ)) (n : ℚ) := by
  obtain ⟨m, hm⟩ := jsDoubleMod_sub_int f (n : ℚ)
  have hfloor : ⌊jsDoubleMod f (n : ℚ)⌋ = ⌊f⌋ - n * m := by
    rw [hm]
    have h : f - (n : ℚ) * m = f - (((n : ℤ) * m : ℤ) : ℚ) := by
      push_cast; ring
    rw [h, Int.floor_sub_int]
  have hp : (0 : ℚ) < n := by exact_mod_cast hn
  apply jsDoubleMod_eq_of_sub hp _ _ m
  rw [hfloor]; push_cast; ring

/-- The backward oscillation scan never moves past its start index. -/
theorem downScan_le (durs : List ℚ) :
    ∀ (i : Nat) (f : ℚ), downScan durs i f ≤ i := by
  intro i
  induction i with
  | zero => intro f; exact Nat.le_refl 0
  | succ i ih =>
    intro f
    rw [downScan]
    split
    · exact le_trans (ih _) (Nat.le_succ i)
    · exact Nat.le_refl _

/-- Oscillation period of a one-sprite animation is its duration. -/
theorem computePeriod_oscillate_single (d : ℚ) :
    computePeriod .oscillate [d] = d := by
  simp [computePeriod, List.range_succ]

/-- Evaluation of `animationFrame` under the `loop` policy: floor, then
double-mod, then the forward scan clipped to the last index. -/
theorem animationFrameIndex_loop (a : AnimSeq) (hl : a.extrapolate = .loop)
    (f0 : ℚ) :
    animationFrameIndex a f0 =
      min (upScan a.durations (jsDoubleMod ((⌊f0⌋ : Int) : ℚ) a.period) : Int)
        ((a.durations.length : Int) - 1) := by
  rw [animationFrameIndex]
  have h1 : (a.extrapolate = Extrapolate.clamp) = False := by
    rw [hl]; exact eq_false (by intro h; cases h)
  have h2 : (a.extrapolate = Extrapolate.oscillate) = False := by
    rw [hl]; exact eq_false (by intro h; cases h)
  simp only [h1, h2, false_and, if_false]

/-- C4 counterexample: `loopCex` satisfies every premise of the claim —
`loop` policy, compile-time period `5/2 > 0` — yet sampling at `f = -2`
yields index 1 while sampling at `((f mod period) + period) mod period
= 1/2` yields index 0: the durations are fractional, the double-mod
result `1/2` is floored away on the second call, and the two samples
return different sprites of the sequence. -/
theorem animationFrame_loop_mod_C4_counterexample :
    loopCex.extrapolate = .loop ∧
    loopCex.period = computePeriod .loop loopCex.durations ∧
    0 < loopCex.period ∧
    jsDoubleMod (-2) loopCex.period = 1/2 ∧
    animationFrameIndex loopCex (-2) = 1 ∧
    animationFrameIndex loopCex (jsDoubleMod (-2) loopCex.period) = 0 := by
  have e1 : jsTrunc ((-2 : ℚ) / (5/2)) = 0 := by
    rw [jsTrunc, if_neg (by norm_num)]
    exact Int.ceil_eq_iff.mpr (by norm_num)
  have e2 : jsMod (-2 : ℚ) (5/2) = -2 := by rw [jsMod, e1]; norm_num
  have e3 : jsTrunc ((1/2 : ℚ) / (5/2)) = 0 := by
    rw [jsTrunc, if_pos (by norm_num)]
    exact Int.floor_eq_iff.mpr (by norm_num)
  have e4 : jsDoubleMod (-2 : ℚ) (5/2) = 1/2 := by
    rw [jsDoubleMod, e2, show (-2 : ℚ) + 5/2 = 1/2 by norm_num, jsMod, e3]
    norm_num
  have hper : loopCex.period = (5/2 : ℚ) := rfl
  have f1 : ⌊(-2 : ℚ)⌋ = -2 := by
    rw [show (-2 : ℚ) = ((-2 : Int) : ℚ) by norm_num, Int.floor_intCast]
  have f2 : ⌊(1/2 : ℚ)⌋ = 0 := Int.floor_eq_iff.mpr (by norm_num)
  have e5 : jsDoubleMod (((-2 : Int) : ℚ)) (5/2) = 1/2 := by
    rw [show (((-2 : Int) : ℚ)) = (-2 : ℚ) by norm_num]; exact e4
  have e6 : jsDoubleMod (((0 : Int) : ℚ)) (5/2) = 0 := by
    have g1 : jsTrunc (((0 : Int) : ℚ) / (5/2)) = 0 := by
      rw [jsTrunc, if_pos (by norm_num)]
      exact Int.floor_eq_iff.mpr (by norm_num)
    have g2 : jsMod (((0 : Int) : ℚ)) (5/2) = 0 := by
      rw [jsMod, g1]; norm_num
    have g3 : jsTrunc (((0 : ℚ) + 5/2) / (5/2)) = 1 := by
      rw [jsTrunc, if_pos (by norm_num)]
      exact Int.floor_eq_iff.mpr (by norm_num)
    rw [jsDoubleMod, g2, jsMod, g3]
    norm_num
  refine ⟨rfl, ?_, ?_, ?_, ?_, ?_⟩
  · norm_num [loopCex, computePeriod, List.range_succ]
  · norm_num [loopCex]
  · rw [hper]; exact e4
  · rw [animationFrameIndex_loop loopCex rfl, f1, hper, e5]
    norm_num [upScan, loopCex]
  · rw [hper, e4, animationFrameIndex_loop loopCex rfl, f2, hper, e6]
    norm_num [upScan, loopCex]

/-- C4 (amended): for a `loop` sequence whose period is a positive
integer number of frames, sampling is invariant under the double-mod
reduction of the counter: `sample(seq, f) = sample(seq,
((f mod period) + period) mod period)` for every finite `f`, so sampling
is periodic and correct for negative input; the unamended claim fails
only for fractional periods. -/
theorem animationFrame_loop_periodic_C4 (a : AnimSeq) (n : Nat)
    (hl : a.extrapolate = .loop) (hn : a.period = (n : ℚ)) (hpos : 0 < n)
    (f : ℚ) :
    animationFrameIndex a f =
      animationFrameIndex a (jsDoubleMod f a.period) := by
  have key := floor_jsDoubleMod f n hpos
  rw [animationFrameIndex_loop a hl, animationFrameIndex_loop a hl, hn, key]

/-- C4 witness: the amended theorem applied to the spec's three-frame
uniform loop with period 3 at `f = -1` and `f = 3`. -/
theorem animationFrame_loop_periodic_C4_witness :
    (animationFrameIndex loopEx3 (-1) =
        animationFrameIndex loopEx3 (jsDoubleMod (-1) loopEx3.period)) ∧
    (animationFrameIndex loopEx3 3 =
        animationFrameIndex loopEx3 (jsDoubleMod 3 loopEx3.period)) :=
  ⟨animationFrame_loop_periodic_C4 loopEx3 3 rfl (by norm_num [loopEx3])
      (by norm_num) (-1),
   animationFrame_loop_periodic_C4 loopEx3 3 rfl (by norm_num [loopEx3])
      (by norm_num) 3⟩

/-- C10: for a non-empty sequence whose stored `period` is the
compile-time value and is positive unless the policy is `clamp`, the
index used for the final lookup is always within `[0, N-1]`, so
`animationFrame` returns an element of the array and never an absent
value. -/
theorem animationFrame_inBounds_C10 (a : AnimSeq) (f : ℚ)
    (hne : a.durations ≠ [])
    (hper : a.period = computePeriod a.extrapolate a.durations)
    (hpos : a.extrapolate ≠ .clamp → 0 < a.period) :
    0 ≤ animationFrameIndex a f ∧
    animationFrameIndex a f < (a.durations.length : Int) ∧
    (a.durations.get? (animationFrameIndex a f).toNat).isSome := by
  have hN : 0 < a.durations.length := List.length_pos.mpr hne
  have hb : 0 ≤ animationFrameIndex a f ∧
      animationFrameIndex a f < (a.durations.length : Int) := by
    simp only [animationFrameIndex]
    split_ifs with h1 h2 h3 h4 h5 h6 h7
    · exact ⟨le_refl 0, by omega⟩
    · constructor <;> omega
    · -- clamp recorded with an oscillate guard: contradictory branch
      exact absurd h4.1 (by rw [h3]; intro h; cases h)
    · exact absurd h4.1 (by rw [h3]; intro h; cases h)
    · -- clamp forward scan
      exact ⟨le_min (Int.ofNat_nonneg _) (by omega),
        lt_of_le_of_lt (min_le_right _ _) (by omega)⟩
    · -- oscillate backward scan from index N-2
      have hd := downScan_le a.durations (a.durations.length - 2)
        (jsDoubleMod ((⌊f⌋ : Int) : ℚ) a.period - reverseTime a)
      exact ⟨Int.ofNat_nonneg _, by omega⟩
    · -- backward branch with a single sprite: unreachable
      exfalso
      have hlen1 : a.durations.length = 1 := by omega
      obtain ⟨d, hd⟩ := List.length_eq_one.mp hlen1
      have hosc2 : a.extrapolate = .oscillate := h6.1
      have hp : 0 < a.period := hpos (by rw [hosc2]; intro h; cases h)
      have hperiod : a.period = d := by
        rw [hper, hosc2, hd, computePeriod_oscillate_single]
      have hmod : jsDoubleMod ((⌊f⌋ : Int) : ℚ) a.period < a.period :=
        jsDoubleMod_lt _ hp
      have hrt : reverseTime a = (a.period + d + d) / 2 := by
        rw [reverseTime, hd]; rfl
      have hrev := h6.2
      rw [hrt, hperiod] at hrev
      rw [hperiod] at hmod
      linarith
    · -- loop (or in-range oscillate) forward scan
      exact ⟨le_min (Int.ofNat_nonneg _) (by omega),
        lt_of_le_of_lt (min_le_right _ _) (by omega)⟩
  refine ⟨hb.1, hb.2, ?_⟩
  have ht : (animationFrameIndex a f).toNat < a.durations.length := by omega
  rw [List.get?_eq_get ht]
  rfl

/-- C10 witness: on the three-frame loop with period 3, sampling at
`f = 5` uses a valid index. -/
theorem animationFrame_inBounds_C10_witness :
    0 ≤ animationFrameIndex loopEx3 5 ∧
    animationFrameIndex loopEx3 5 < (loopEx3.durations.length : Int) ∧
    (loopEx3.durations.get? (animationFrameIndex loopEx3 5).toNat).isSome :=
  animationFrame_inBounds_C10 loopEx3 5 (by simp [loopEx3])
    (by norm_num [loopEx3, computePeriod, List.range_succ])
    (fun _ => by norm_num [loopEx3])

end QuadplayLoad
